import Mathlib

/-! Verification development for the game-platform repository (src/game.py and
src/main.py).  The Python classes are shallowly embedded as Lean structures,
and the stateful methods as pure functions returning the updated object
together with the list of console messages they print.  Python object
references to games are modelled by a heap, a list of Jogo values indexed
by natural-number addresses.  The Python currency class POOCoin stores a
float rounded to two decimal places; it is modelled over the rationals with
explicit round-half-even at two decimals, abstracting the IEEE doubles of
the source.  Console strings are reproduced up to accents and quotation
marks; the ticket status strings, which the code compares against, are kept
exactly as in the source.
-/

/-! Currency: class POOCoin (game.py lines 98-112) -/

/-- Round a rational to the nearest integer, ties to even, as the Python
built-in round does on the value of a float.  Stated with the computable
Rat.floor so that concrete instances evaluate inside the kernel. -/
def roundHalfEven (q : ℚ) : ℤ :=
  if q - (Rat.floor q : ℚ) < 1/2 then Rat.floor q
  else if 1/2 < q - (Rat.floor q : ℚ) then Rat.floor q + 1
  else if Rat.floor q % 2 = 0 then Rat.floor q else Rat.floor q + 1

/-- Model of round(x, 2) used by the POOCoin constructor. -/
def round2 (q : ℚ) : ℚ := (roundHalfEven (100 * q) : ℚ) / 100

/-- A rational with at most two decimal digits of precision. -/
def TwoDec (q : ℚ) : Prop := ∃ n : ℤ, q = (n : ℚ) / 100

structure POOCoin where
  valor : ℚ
deriving DecidableEq, Repr

/-- POOCoin constructor: stores round(float(valor), 2). -/
def POOCoin.init (v : ℚ) : POOCoin := ⟨round2 v⟩

/-- POOCoin addition builds a new POOCoin from the sum of the values. -/
def POOCoin.add (a b : POOCoin) : POOCoin := POOCoin.init (a.valor + b.valor)

/-- POOCoin subtraction builds a new POOCoin from the difference. -/
def POOCoin.sub (a b : POOCoin) : POOCoin := POOCoin.init (a.valor - b.valor)

/-- POOCoin comparison, the Python lt dunder on the stored values. -/
def POOCoin.ltb (a b : POOCoin) : Bool := decide (a.valor < b.valor)

/-! Patches, games, tickets (game.py lines 153-156, 259-336, 455-456) -/

structure PatchNote where
  versao : String
  notas : String
deriving DecidableEq, Repr

structure Jogo where
  nome : String
  preco : POOCoin
  loja : List (String × POOCoin)
  plataformas : List String
  versao_atual : String
  patches : List PatchNote
deriving DecidableEq, Repr

/-- Jogo.publicar_patch: sets versao_atual and appends the patch note. -/
def Jogo.publicar_patch (j : Jogo) (versao notas : String) : Jogo :=
  { j with versao_atual := versao, patches := j.patches ++ [⟨versao, notas⟩] }

/-- A helpdesk ticket; the source stores it as a dict with keys problema,
status and categoria. -/
structure Ticket where
  problema : String
  status : String
  categoria : String
deriving DecidableEq, Repr

/-! Association-list helpers for the Python dict fields -/

def lookupAssoc {α : Type} : List (String × α) → String → Option α
  | [], _ => none
  | (k, v) :: t, key => if k = key then some v else lookupAssoc t key

def updateAssoc {α : Type} : List (String × α) → String → α → List (String × α)
  | [], _, _ => []
  | (k, v) :: t, key, newV =>
      if k = key then (k, newV) :: t else (k, v) :: updateAssoc t key newV

/-- Jogo.obter_preco_item: raises NotFoundError when the item is absent,
otherwise returns its price. -/
def Jogo.obter_preco_item (j : Jogo) (item : String) : Except String POOCoin :=
  match lookupAssoc j.loja item with
  | none => Except.error ("Item " ++ item ++ " nao encontrado na loja do jogo " ++ j.nome ++ ".")
  | some p => Except.ok p

/-! The heap of game objects -/

def nthJogo : List Jogo → Nat → Option Jogo
  | [], _ => none
  | j :: _, 0 => some j
  | _ :: t, n+1 => nthJogo t n

def setAt : List Jogo → Nat → (Jogo → Jogo) → List Jogo
  | [], _, _ => []
  | j :: t, 0, f => f j :: t
  | j :: t, n+1, f => j :: setAt t n f

/-- Publishing a patch on the game object stored at a heap address,
as the admin menu and the facade do. -/
def publicar_patch_at (heap : List Jogo) (ref : Nat) (versao notas : String) : List Jogo :=
  setAt heap ref (fun j => j.publicar_patch versao notas)

/-! Chain of responsibility: support handlers (game.py lines 368-408) -/

/-- AtendimentoBasico resolves categories login, cadastro, senha. -/
def AtendimentoBasico_processa (t : Ticket) : Option Ticket :=
  if ["login", "cadastro", "senha"].contains t.categoria then
    some { t with status := "Resolvido (Básico)" }
  else none

/-- AtendimentoAvancado resolves categories pagamento, instalacao. -/
def AtendimentoAvancado_processa (t : Ticket) : Option Ticket :=
  if ["pagamento", "instalacao"].contains t.categoria then
    some { t with status := "Resolvido (Avançado)" }
  else none

/-- AtendimentoFallback always resolves, marking the ticket Em análise. -/
def AtendimentoFallback_processa (t : Ticket) : Option Ticket :=
  some { t with status := "Em análise" }

/-- SuporteHandler.handle: try each handler in order until one processes. -/
def handleChain : List (Ticket → Option Ticket) → Ticket → Ticket
  | [], t => t
  | h :: rest, t =>
      match h t with
      | some t2 => t2
      | none => handleChain rest t

/-- The chain built in Plataforma: Basico, then Avancado, then Fallback. -/
def suporte_chain : List (Ticket → Option Ticket) :=
  [AtendimentoBasico_processa, AtendimentoAvancado_processa, AtendimentoFallback_processa]

def suporte_handle (t : Ticket) : Ticket := handleChain suporte_chain t

/-! Accounts: class Usuario (game.py lines 414-560) -/

/-- An entry of the library dict jogos_adquiridos: the key obj holds a
reference to the game object (here a heap address) and versao_instalada the
version recorded at purchase time. -/
structure Registro where
  obj : Nat
  versao_instalada : String
deriving DecidableEq, Repr

structure Usuario where
  nome : String
  email : String
  senha : String
  idade : Int
  saldo : POOCoin
  jogos_adquiridos : List (String × Registro)
  preferencias : List String
  tickets : List Ticket
  mensagens : List String
  preferencia_plataforma : Option String
  achievements_desbloqueados : List (String × List String)
deriving DecidableEq, Repr

def PLAT_PERMITIDAS : List String := ["PC", "Mobile", "Console"]

def Usuario.possui_jogo (u : Usuario) (nome_jogo : String) : Bool :=
  (lookupAssoc u.jogos_adquiridos nome_jogo).isSome

def Usuario.get_registro_jogo (u : Usuario) (nome_jogo : String) : Option Registro :=
  lookupAssoc u.jogos_adquiridos nome_jogo

/-- The preferencia_plataforma setter: accepts None or a permitted
platform, otherwise only prints a complaint and changes nothing. -/
def Usuario.set_preferencia_plataforma (u : Usuario) (plataforma : Option String) :
    Usuario × List String :=
  match plataforma with
  | none => ({ u with preferencia_plataforma := none }, [])
  | some p =>
      if PLAT_PERMITIDAS.contains p then
        ({ u with preferencia_plataforma := some p }, [])
      else
        (u, ["Plataforma invalida. Use: Console, Mobile, PC"])

def msgsIf (notify : Bool) (msg : String) : List String :=
  if notify then [msg] else []

/-- Usuario.adicionar_saldo: credits only a positive amount; otherwise the
state is untouched and a complaint is printed when notify holds. -/
def Usuario.adicionar_saldo (u : Usuario) (valor_adicionar : POOCoin) (notify : Bool) :
    Usuario × List String :=
  if 0 < valor_adicionar.valor then
    ({ u with saldo := POOCoin.add u.saldo valor_adicionar }, msgsIf notify "Saldo adicionado!")
  else
    (u, msgsIf notify "O valor deve ser positivo.")

/-- The truthiness test of comprar_jogo: the stored preference is not None,
not empty, and the game does not list it. -/
def Usuario.pref_incompativel (u : Usuario) (jogo : Jogo) : Bool :=
  match u.preferencia_plataforma with
  | none => false
  | some p => (p != "") && !(jogo.plataformas.contains p)

/-- Usuario.comprar_jogo.  The argument ref is the heap address of the jogo
object the caller passes; it is recorded as the obj reference of the new
library entry.  The success message of the source also renders the new
balance, elided here. -/
def Usuario.comprar_jogo (u : Usuario) (jogo : Jogo) (ref : Nat) (notify : Bool) :
    Usuario × List String :=
  if u.possui_jogo jogo.nome then
    (u, msgsIf notify ("Voce ja possui o jogo " ++ jogo.nome ++ "."))
  else if u.pref_incompativel jogo then
    (u, msgsIf notify (jogo.nome ++ " nao e compativel com sua plataforma preferida."))
  else if POOCoin.ltb u.saldo jogo.preco then
    (u, msgsIf notify ("Saldo insuficiente para comprar " ++ jogo.nome ++ "."))
  else
    ({ u with
        saldo := POOCoin.sub u.saldo jogo.preco,
        jogos_adquiridos :=
          u.jogos_adquiridos ++ [(jogo.nome, ⟨ref, jogo.versao_atual⟩)] },
     msgsIf notify ("Jogo " ++ jogo.nome ++ " comprado com sucesso!"))

/-- Usuario.comprar_item: needs the game, the item, and enough balance;
the NotFoundError raised by obter_preco_item is caught and printed. -/
def Usuario.comprar_item (u : Usuario) (jogo : Jogo) (nome_item : String) :
    Usuario × List String :=
  if !(u.possui_jogo jogo.nome) then
    (u, ["Voce precisa adquirir o jogo " ++ jogo.nome ++ " para comprar itens nele."])
  else
    match jogo.obter_preco_item nome_item with
    | Except.error e => (u, [e])
    | Except.ok preco =>
        if POOCoin.ltb u.saldo preco then
          (u, ["Saldo insuficiente."])
        else
          ({ u with saldo := POOCoin.sub u.saldo preco },
           [nome_item ++ " comprado com sucesso!"])

/-- Usuario.atualizar_jogo: dereferences the obj pointer of the stored
registro through the heap; when the installed version already equals the
current one it reports a no-op, otherwise it updates the registro in
place. -/
def Usuario.atualizar_jogo (heap : List Jogo) (u : Usuario) (nome_jogo : String) :
    Usuario × List String :=
  match lookupAssoc u.jogos_adquiridos nome_jogo with
  | none => (u, ["Voce nao possui este jogo."])
  | some reg =>
      match nthJogo heap reg.obj with
      | none => (u, [])
      | some jogo =>
          if reg.versao_instalada = jogo.versao_atual then
            (u, [nome_jogo ++ " ja esta atualizado (v" ++ reg.versao_instalada ++ ")."])
          else
            ({ u with jogos_adquiridos :=
                updateAssoc u.jogos_adquiridos nome_jogo ⟨reg.obj, jogo.versao_atual⟩ },
             [nome_jogo ++ " atualizado de v" ++ reg.versao_instalada ++ " para v" ++ jogo.versao_atual ++ "."])

/-- Usuario.abrir_ticket appends a fresh ticket with status Aberto. -/
def Usuario.abrir_ticket (u : Usuario) (problema : String) (categoria : String) : Usuario :=
  { u with tickets := u.tickets ++ [⟨problema, "Aberto", categoria⟩] }

/-- The call u.abrir_ticket(problema) of main.py, with the default
categoria of the source, the string geral. -/
def Usuario.abrir_ticket_default (u : Usuario) (problema : String) : Usuario :=
  u.abrir_ticket problema "geral"

/-- Usuario.listar_tickets returns a list of fresh dict copies of the
stored tickets. -/
def Usuario.listar_tickets (u : Usuario) : List Ticket := u.tickets

/-- Plataforma.processar_tickets_usuario: iterates over the copies
returned by listar_tickets and lets the chain handle each copy whose
status is Aberto.  The mutated copies (second component) are discarded by
the source; the account itself (first component) is never written. -/
def Plataforma.processar_tickets_usuario (u : Usuario) : Usuario × List Ticket :=
  (u, (Usuario.listar_tickets u).map (fun t => if t.status = "Aberto" then suporte_handle t else t))

/-! Child accounts: class UsuarioInfantil (game.py lines 563-572) -/

/-- UsuarioInfantil adds guardian data, an approval status (initially the
string pendente) and the two permission flags of the permissoes dict.  It
overrides no purchase method. -/
structure UsuarioInfantil where
  base : Usuario
  responsavel_email : String
  status_aprovacao : String
  pode_comprar_itens : Bool
  pode_comprar_jogos : Bool
deriving DecidableEq, Repr

/-- The comprar_jogo method a UsuarioInfantil object runs: the inherited
Usuario.comprar_jogo, unchanged, since game.py defines no override. -/
def UsuarioInfantil.comprar_jogo (u : UsuarioInfantil) (jogo : Jogo) (ref : Nat) (notify : Bool) :
    UsuarioInfantil × List String :=
  ({ u with base := (Usuario.comprar_jogo u.base jogo ref notify).1 },
   (Usuario.comprar_jogo u.base jogo ref notify).2)

/-- The purchase path of main.menu_usuario for a child account: a pendente
account is turned away at the door (main.py lines 194-196); any other child
reaches the shop, and option 1 calls comprar_jogo directly, consulting no
permission flag. -/
def menu_usuario_comprar (u : UsuarioInfantil) (jogo : Jogo) (ref : Nat) :
    UsuarioInfantil × List String :=
  if u.status_aprovacao = "pendente" then
    (u, ["Sua conta esta pendente de aprovacao. Peca para seu responsavel libera-la."])
  else
    UsuarioInfantil.comprar_jogo u jogo ref true

/-! Sequences of account operations -/

/-- The account-level operations a session can perform, used to state the
invariants that hold along any sequence of them. -/
inductive Op where
  | credito (v : POOCoin) (notify : Bool)
  | compra (ref : Nat) (notify : Bool)
  | compraItem (ref : Nat) (item : String)
  | atualizar (nome : String)
  | abrirTicket (problema categoria : String)
  | processarTickets
  | patch (ref : Nat) (versao notas : String)

def step (s : List Jogo × Usuario) : Op → List Jogo × Usuario
  | .credito v notify => (s.1, (Usuario.adicionar_saldo s.2 v notify).1)
  | .compra ref notify =>
      (s.1, match nthJogo s.1 ref with
            | some j => (Usuario.comprar_jogo s.2 j ref notify).1
            | none => s.2)
  | .compraItem ref item =>
      (s.1, match nthJogo s.1 ref with
            | some j => (Usuario.comprar_item s.2 j item).1
            | none => s.2)
  | .atualizar nome => (s.1, (Usuario.atualizar_jogo s.1 s.2 nome).1)
  | .abrirTicket problema categoria => (s.1, Usuario.abrir_ticket s.2 problema categoria)
  | .processarTickets => (s.1, (Plataforma.processar_tickets_usuario s.2).1)
  | .patch ref versao notas => (publicar_patch_at s.1 ref versao notas, s.2)

def run (s : List Jogo × Usuario) (ops : List Op) : List Jogo × Usuario :=
  ops.foldl step s

/-! Currency lemmas -/

theorem ratFloor_eq_intFloor (q : ℚ) : Rat.floor q = ⌊q⌋ := by
  rw [Rat.floor_def]
  exact Rat.floor_def' q

theorem roundHalfEven_intCast (n : ℤ) : roundHalfEven (n : ℚ) = n := by
  unfold roundHalfEven
  rw [ratFloor_eq_intFloor, Int.floor_intCast]
  norm_num

theorem twoDec_round2 (q : ℚ) : TwoDec (round2 q) :=
  ⟨roundHalfEven (100 * q), rfl⟩

theorem round2_eq_self (q : ℚ) (h : TwoDec q) : round2 q = q := by
  obtain ⟨n, rfl⟩ := h
  unfold round2
  have h1 : (100 : ℚ) * ((n : ℚ) / 100) = (n : ℚ) := by field_simp
  rw [h1, roundHalfEven_intCast]

theorem roundHalfEven_nonneg (q : ℚ) (h : 0 ≤ q) : 0 ≤ roundHalfEven q := by
  unfold roundHalfEven
  rw [ratFloor_eq_intFloor]
  have hf : (0 : ℤ) ≤ ⌊q⌋ := Int.floor_nonneg.mpr h
  split_ifs <;> omega

theorem round2_nonneg (q : ℚ) (h : 0 ≤ q) : 0 ≤ round2 q := by
  unfold round2
  apply div_nonneg _ (by norm_num)
  exact_mod_cast roundHalfEven_nonneg _ (by positivity)

theorem twoDec_add {a b : ℚ} (ha : TwoDec a) (hb : TwoDec b) : TwoDec (a + b) := by
  obtain ⟨m, rfl⟩ := ha
  obtain ⟨n, rfl⟩ := hb
  exact ⟨m + n, by push_cast; ring⟩

theorem twoDec_sub {a b : ℚ} (ha : TwoDec a) (hb : TwoDec b) : TwoDec (a - b) := by
  obtain ⟨m, rfl⟩ := ha
  obtain ⟨n, rfl⟩ := hb
  exact ⟨m - n, by push_cast; ring⟩

theorem POOCoin.add_valor {a b : POOCoin} (ha : TwoDec a.valor) (hb : TwoDec b.valor) :
    (POOCoin.add a b).valor = a.valor + b.valor :=
  round2_eq_self _ (twoDec_add ha hb)

theorem POOCoin.sub_valor {a b : POOCoin} (ha : TwoDec a.valor) (hb : TwoDec b.valor) :
    (POOCoin.sub a b).valor = a.valor - b.valor :=
  round2_eq_self _ (twoDec_sub ha hb)

theorem POOCoin.init_eq (v : ℚ) (h : TwoDec v) : POOCoin.init v = ⟨v⟩ := by
  unfold POOCoin.init
  rw [round2_eq_self v h]

/-! Evaluation lemmas for the concrete sample values -/

theorem init75 : POOCoin.init 75 = ⟨75⟩ := POOCoin.init_eq 75 ⟨7500, by norm_num⟩

theorem init50 : POOCoin.init 50 = ⟨50⟩ := POOCoin.init_eq 50 ⟨5000, by norm_num⟩

theorem ltb_75_50 : POOCoin.ltb ⟨75⟩ ⟨50⟩ = false := by
  simp [POOCoin.ltb]
  norm_num

theorem sub_75_50 : POOCoin.sub ⟨75⟩ ⟨50⟩ = ⟨25⟩ := by
  unfold POOCoin.sub
  have h : ((⟨75⟩ : POOCoin)).valor - ((⟨50⟩ : POOCoin)).valor = (25 : ℚ) := by norm_num
  rw [h]
  exact POOCoin.init_eq 25 ⟨2500, by norm_num⟩

/-! Concrete sample data, mirroring the preset objects of main.py -/

def jogoSR : Jogo :=
  { nome := "Semestre_Rush", preco := POOCoin.init 50,
    loja := [("Ponto_Extra", POOCoin.init 10)],
    plataformas := ["PC"], versao_atual := "1.0.0", patches := [] }

def contaBase : Usuario :=
  { nome := "luu", email := "luu@ic.com", senha := "luu123", idade := 30,
    saldo := POOCoin.init 75, jogos_adquiridos := [], preferencias := [],
    tickets := [], mensagens := [], preferencia_plataforma := none,
    achievements_desbloqueados := [] }

def rafaelBase : Usuario :=
  { contaBase with nome := "rafael", email := "rafael@email.com", senha := "rafael123", idade := 12 }

def rafael : UsuarioInfantil :=
  { base := rafaelBase,
    responsavel_email := "luu@ic.com", status_aprovacao := "aprovado",
    pode_comprar_itens := true, pode_comprar_jogos := false }

def mariaBase : Usuario :=
  { contaBase with nome := "maria", email := "maria@email.com", senha := "maria123", idade := 10 }

def maria : UsuarioInfantil :=
  { base := mariaBase,
    responsavel_email := "luu@ic.com", status_aprovacao := "pendente",
    pode_comprar_itens := false, pode_comprar_jogos := false }

def contaComTicket : Usuario :=
  { contaBase with tickets := [⟨"nao abre", "Aberto", "login"⟩] }

/-! Claims -/

/-- Claim C1: the spec says a child purchase fails with ApprovalRequired
while the status is pendente and with PermissionDenied while the
can-buy-games flag is off.  The code enforces neither inside
comprar_jogo: the approved child rafael, whose pode_comprar_jogos flag is
false, buys the game through the very menu path of main.py, the price is
debited, and a direct comprar_jogo call by the still-pendente child maria
also succeeds. -/
theorem c1_child_purchase_checks_missing :
    rafael.status_aprovacao = "aprovado"
    ∧ rafael.pode_comprar_jogos = false
    ∧ (menu_usuario_comprar rafael jogoSR 0).1.base.possui_jogo "Semestre_Rush" = true
    ∧ (menu_usuario_comprar rafael jogoSR 0).1.base.saldo.valor = 25
    ∧ maria.status_aprovacao = "pendente"
    ∧ (UsuarioInfantil.comprar_jogo maria jogoSR 0 true).1.base.possui_jogo "Semestre_Rush" = true := by
  have hs : ¬("aprovado" = "pendente") := by decide
  refine ⟨rfl, rfl, ?_, ?_, rfl, ?_⟩ <;>
    simp [menu_usuario_comprar, UsuarioInfantil.comprar_jogo, Usuario.comprar_jogo,
      rafael, rafaelBase, maria, mariaBase, contaBase, jogoSR, hs, init75, init50,
      ltb_75_50, sub_75_50, Usuario.possui_jogo, Usuario.pref_incompativel, lookupAssoc, msgsIf]

/-- Claim C2: the spec says processPendingTickets resolves every open
ticket stored on the account.  The code iterates over the dict copies
returned by listar_tickets, so the chain resolves the copies (second
component) while the tickets held by the account keep status Aberto. -/
theorem c2_process_tickets_leaves_account_open :
    (Plataforma.processar_tickets_usuario contaComTicket).1 = contaComTicket
    ∧ ((Plataforma.processar_tickets_usuario contaComTicket).1.tickets.map Ticket.status) = ["Aberto"]
    ∧ ((Plataforma.processar_tickets_usuario contaComTicket).2.map Ticket.status) = ["Resolvido (Básico)"] := by
  refine ⟨rfl, by decide, by decide⟩

/-- Claim C4: the support chain tries Basico, Avancado, Fallback in order;
login, cadastro and senha tickets end Resolvido (Básico), pagamento and
instalacao tickets end Resolvido (Avançado), every other category ends
Em análise, and no resolved ticket keeps status Aberto. -/
theorem c4_suporte_chain_routing (t : Ticket) :
    (suporte_handle t).status =
      (if ["login", "cadastro", "senha"].contains t.categoria then "Resolvido (Básico)"
       else if ["pagamento", "instalacao"].contains t.categoria then "Resolvido (Avançado)"
       else "Em análise")
    ∧ (suporte_handle t).status ≠ "Aberto" := by
  refine ⟨?_, ?_⟩ <;>
    by_cases h1 : t.categoria = "login" ∨ t.categoria = "cadastro" ∨ t.categoria = "senha" <;>
    by_cases h2 : t.categoria = "pagamento" ∨ t.categoria = "instalacao" <;>
    simp [suporte_handle, handleChain, suporte_chain, AtendimentoBasico_processa,
      AtendimentoAvancado_processa, AtendimentoFallback_processa, h1, h2]

/-- Claim C10: a ticket opened through abrir_ticket with the default
category starts with status Aberto and category geral; neither the basic
nor the advanced handler matches geral, so the chain resolves such a
ticket to Em análise. -/
theorem c10_ticket_default (u : Usuario) (problema : String) :
    (u.abrir_ticket_default problema).tickets = u.tickets ++ [⟨problema, "Aberto", "geral"⟩]
    ∧ AtendimentoBasico_processa ⟨problema, "Aberto", "geral"⟩ = none
    ∧ AtendimentoAvancado_processa ⟨problema, "Aberto", "geral"⟩ = none
    ∧ suporte_handle ⟨problema, "Aberto", "geral"⟩ = ⟨problema, "Em análise", "geral"⟩ := by
  have hb : (["login", "cadastro", "senha"].contains "geral") = false := by decide
  have ha : (["pagamento", "instalacao"].contains "geral") = false := by decide
  refine ⟨rfl, ?_, ?_, ?_⟩ <;>
    simp [AtendimentoBasico_processa, AtendimentoAvancado_processa, AtendimentoFallback_processa,
      suporte_handle, handleChain, suporte_chain, hb, ha]

/-! More evaluation and association-list lemmas -/

theorem add_75_50 : POOCoin.add ⟨75⟩ ⟨50⟩ = ⟨125⟩ := by
  unfold POOCoin.add
  have h : ((⟨75⟩ : POOCoin)).valor + ((⟨50⟩ : POOCoin)).valor = (125 : ℚ) := by norm_num
  rw [h]
  exact POOCoin.init_eq 125 ⟨12500, by norm_num⟩

theorem initNeg5 : POOCoin.init (-5) = ⟨-5⟩ := POOCoin.init_eq (-5) ⟨-500, by norm_num⟩

theorem lookupAssoc_append_right {α : Type} (l : List (String × α)) (k : String) (v : α)
    (h : lookupAssoc l k = none) : lookupAssoc (l ++ [(k, v)]) k = some v := by
  induction l with
  | nil => simp [lookupAssoc]
  | cons hd t ih =>
      obtain ⟨k0, v0⟩ := hd
      by_cases hk : k0 = k
      · simp [lookupAssoc, hk] at h
      · simp [lookupAssoc, hk] at h ⊢
        exact ih h

theorem lookupAssoc_append_some {α : Type} (l l2 : List (String × α)) (k : String)
    (h : (lookupAssoc l k).isSome = true) :
    (lookupAssoc (l ++ l2) k).isSome = true := by
  induction l with
  | nil => simp [lookupAssoc] at h
  | cons hd t ih =>
      obtain ⟨k0, v0⟩ := hd
      by_cases hk : k0 = k
      · simp [lookupAssoc, hk]
      · simp [lookupAssoc, hk] at h ⊢
        exact ih h

theorem lookupAssoc_updateAssoc_isSome {α : Type} (l : List (String × α)) (k k2 : String) (v : α) :
    (lookupAssoc (updateAssoc l k v) k2).isSome = (lookupAssoc l k2).isSome := by
  induction l with
  | nil => simp [lookupAssoc, updateAssoc]
  | cons hd t ih =>
      obtain ⟨k0, v0⟩ := hd
      by_cases hk : k0 = k
      · simp only [updateAssoc, lookupAssoc, if_pos hk]
        rw [hk]
        split_ifs <;> simp
      · by_cases hk2 : k0 = k2
        · subst hk2
          simp [lookupAssoc, updateAssoc, hk]
        · simp [lookupAssoc, updateAssoc, hk, hk2, ih]

theorem lookupAssoc_updateAssoc_self {α : Type} (l : List (String × α)) (k : String) (v r : α)
    (h : lookupAssoc l k = some r) : lookupAssoc (updateAssoc l k v) k = some v := by
  induction l with
  | nil => simp [lookupAssoc] at h
  | cons hd t ih =>
      obtain ⟨k0, v0⟩ := hd
      by_cases hk : k0 = k
      · simp [lookupAssoc, updateAssoc, hk]
      · simp [lookupAssoc, updateAssoc, hk] at h ⊢
        exact ih h

/-- Claim C5: every failing core operation is atomic: when comprar_jogo,
comprar_item or adicionar_saldo fails, for any of the possible reasons,
the account returned is exactly the account passed in, with every field
unchanged. -/
theorem c5_failure_atomicity (u : Usuario) (jogo : Jogo) (ref : Nat) (notify : Bool)
    (item : String) (v : POOCoin) :
    (u.possui_jogo jogo.nome = true → (Usuario.comprar_jogo u jogo ref notify).1 = u)
    ∧ (u.possui_jogo jogo.nome = false → u.pref_incompativel jogo = true →
        (Usuario.comprar_jogo u jogo ref notify).1 = u)
    ∧ (u.possui_jogo jogo.nome = false → u.pref_incompativel jogo = false →
        POOCoin.ltb u.saldo jogo.preco = true → (Usuario.comprar_jogo u jogo ref notify).1 = u)
    ∧ (u.possui_jogo jogo.nome = false → (Usuario.comprar_item u jogo item).1 = u)
    ∧ (u.possui_jogo jogo.nome = true → lookupAssoc jogo.loja item = none →
        (Usuario.comprar_item u jogo item).1 = u)
    ∧ (∀ preco, u.possui_jogo jogo.nome = true → lookupAssoc jogo.loja item = some preco →
        POOCoin.ltb u.saldo preco = true → (Usuario.comprar_item u jogo item).1 = u)
    ∧ (¬(0 < v.valor) → (Usuario.adicionar_saldo u v notify).1 = u) := by
  refine ⟨?_, ?_, ?_, ?_, ?_, ?_, ?_⟩
  · intro h1
    simp [Usuario.comprar_jogo, h1]
  · intro h1 h2
    simp [Usuario.comprar_jogo, h1, h2]
  · intro h1 h2 h3
    simp [Usuario.comprar_jogo, h1, h2, h3]
  · intro h1
    simp [Usuario.comprar_item, h1]
  · intro h1 h2
    simp [Usuario.comprar_item, Jogo.obter_preco_item, h1, h2]
  · intro preco h1 h2 h3
    simp [Usuario.comprar_item, Jogo.obter_preco_item, h1, h2, h3]
  · intro h1
    simp [Usuario.adicionar_saldo, h1]

/-- Witness for C5 at a concrete input: the credit of a non-positive
amount leaves the sample account untouched. -/
theorem c5_failure_atomicity_witness :
    (Usuario.adicionar_saldo contaBase (POOCoin.init (-5)) true).1 = contaBase := by
  have hneg : ¬(0 < (POOCoin.init (-5)).valor) := by
    rw [initNeg5]
    norm_num
  exact (c5_failure_atomicity contaBase jogoSR 0 true "x" (POOCoin.init (-5))).2.2.2.2.2.2 hneg

/-- Claim C6 counterexample: the claim says every failing call is
observable by the caller as a typed failure.  At this concrete input the
failing credit (non-positive amount, notify False) returns the account
unchanged and prints nothing, exactly the Python return value None with no
exception: its whole result is (contaBase, []).  A succeeding credit with
notify False has the same empty output and the same None return, differing
only in hidden state, so the failure is silent and indistinguishable from
success in the result the caller sees. -/
theorem c6_silent_failure :
    Usuario.adicionar_saldo contaBase (POOCoin.init (-5)) false = (contaBase, [])
    ∧ (Usuario.adicionar_saldo contaBase (POOCoin.init 50) false).2 = []
    ∧ (Usuario.adicionar_saldo contaBase (POOCoin.init 50) false).1 ≠ contaBase := by
  have hneg : ¬(0 < (POOCoin.init (-5)).valor) := by
    rw [initNeg5]
    norm_num
  have hpos : 0 < (POOCoin.init 50).valor := by
    rw [init50]
    norm_num
  refine ⟨?_, ?_, ?_⟩
  · simp [Usuario.adicionar_saldo, hneg, msgsIf]
  · simp [Usuario.adicionar_saldo, hpos, msgsIf]
  · simp only [Usuario.adicionar_saldo, if_pos hpos]
    intro hEq
    have hs : POOCoin.add contaBase.saldo (POOCoin.init 50) = contaBase.saldo := congrArg Usuario.saldo hEq
    rw [show contaBase.saldo = (⟨75⟩ : POOCoin) from by simp [contaBase, init75], init50, add_75_50] at hs
    have : (125 : ℚ) = 75 := congrArg POOCoin.valor hs
    norm_num at this

/-- Claim C6 amended: failures of the core operations are reported only by
printing a console message, naming the reason, while the account state is
left unchanged; comprar_jogo and adicionar_saldo print only when notify
holds, comprar_item and the platform setter always print; no operation
returns a failure value or raises. -/
theorem c6_failures_print_and_preserve (u : Usuario) (jogo : Jogo) (ref : Nat)
    (item : String) (v : POOCoin) (p : String) :
    (u.possui_jogo jogo.nome = true →
      Usuario.comprar_jogo u jogo ref true = (u, ["Voce ja possui o jogo " ++ jogo.nome ++ "."]))
    ∧ (u.possui_jogo jogo.nome = false → u.pref_incompativel jogo = true →
      Usuario.comprar_jogo u jogo ref true = (u, [jogo.nome ++ " nao e compativel com sua plataforma preferida."]))
    ∧ (u.possui_jogo jogo.nome = false → u.pref_incompativel jogo = false →
        POOCoin.ltb u.saldo jogo.preco = true →
      Usuario.comprar_jogo u jogo ref true = (u, ["Saldo insuficiente para comprar " ++ jogo.nome ++ "."]))
    ∧ (u.possui_jogo jogo.nome = false →
      Usuario.comprar_item u jogo item = (u, ["Voce precisa adquirir o jogo " ++ jogo.nome ++ " para comprar itens nele."]))
    ∧ (¬(0 < v.valor) →
      Usuario.adicionar_saldo u v true = (u, ["O valor deve ser positivo."]))
    ∧ (PLAT_PERMITIDAS.contains p = false →
      Usuario.set_preferencia_plataforma u (some p) = (u, ["Plataforma invalida. Use: Console, Mobile, PC"])) := by
  refine ⟨?_, ?_, ?_, ?_, ?_, ?_⟩
  · intro h1
    simp [Usuario.comprar_jogo, h1, msgsIf]
  · intro h1 h2
    simp [Usuario.comprar_jogo, h1, h2, msgsIf]
  · intro h1 h2 h3
    simp [Usuario.comprar_jogo, h1, h2, h3, msgsIf]
  · intro h1
    simp [Usuario.comprar_item, h1]
  · intro h1
    simp [Usuario.adicionar_saldo, h1, msgsIf]
  · intro h1
    have h2 : p ∉ PLAT_PERMITIDAS := by simpa using h1
    simp [Usuario.set_preferencia_plataforma, h2]

/-- Witness for the amended C6 at a concrete input: the failing credit
with notify True prints the reason and preserves the account. -/
theorem c6_failures_print_and_preserve_witness :
    Usuario.adicionar_saldo contaBase (POOCoin.init (-5)) true = (contaBase, ["O valor deve ser positivo."]) := by
  have hneg : ¬(0 < (POOCoin.init (-5)).valor) := by
    rw [initNeg5]
    norm_num
  exact (c6_failures_print_and_preserve contaBase jogoSR 0 "x" (POOCoin.init (-5)) "PS5").2.2.2.2.1 hneg

/-- Claim C8: on two-decimal values a valid credit adds exactly, and the
POOCoin add and sub operations always return a value with at most two
decimal digits of precision, because the constructor rounds. -/
theorem c8_money_two_decimals (u : Usuario) (a : POOCoin) (notify : Bool)
    (hb : TwoDec u.saldo.valor) (ha : TwoDec a.valor) (hpos : 0 < a.valor) :
    (Usuario.adicionar_saldo u a notify).1.saldo.valor = u.saldo.valor + a.valor
    ∧ TwoDec ((Usuario.adicionar_saldo u a notify).1.saldo.valor)
    ∧ (∀ x y : POOCoin, TwoDec ((POOCoin.add x y).valor) ∧ TwoDec ((POOCoin.sub x y).valor)) := by
  have hstep : (Usuario.adicionar_saldo u a notify).1 = { u with saldo := POOCoin.add u.saldo a } := by
    simp [Usuario.adicionar_saldo, hpos]
  refine ⟨?_, ?_, ?_⟩
  · rw [hstep]
    exact POOCoin.add_valor hb ha
  · rw [hstep]
    exact twoDec_round2 _
  · intro x y
    exact ⟨twoDec_round2 _, twoDec_round2 _⟩

/-- Witness for C8 at a concrete input: crediting 50 onto the sample
balance of 75 gives exactly 125. -/
theorem c8_money_two_decimals_witness :
    (Usuario.adicionar_saldo contaBase (POOCoin.init 50) true).1.saldo.valor
      = contaBase.saldo.valor + (POOCoin.init 50).valor := by
  have hb : TwoDec contaBase.saldo.valor := by
    rw [show contaBase.saldo = (⟨75⟩ : POOCoin) from by simp [contaBase, init75]]
    exact ⟨7500, by norm_num⟩
  have ha : TwoDec (POOCoin.init 50).valor := by
    rw [init50]
    exact ⟨5000, by norm_num⟩
  have hpos : 0 < (POOCoin.init 50).valor := by
    rw [init50]
    norm_num
  exact (c8_money_two_decimals contaBase (POOCoin.init 50) true hb ha hpos).1

/-- Claim C9: atualizar_jogo is idempotent on an owned game.  Running it a
second time with no intervening patch leaves the account exactly as after
the first run, and the second run reports the game as already updated, a
no-op message rather than an error. -/
theorem c9_atualizar_idempotente (heap : List Jogo) (u : Usuario) (nome : String)
    (reg : Registro) (jogo : Jogo)
    (hreg : lookupAssoc u.jogos_adquiridos nome = some reg)
    (hjogo : nthJogo heap reg.obj = some jogo) :
    (Usuario.atualizar_jogo heap (Usuario.atualizar_jogo heap u nome).1 nome).1
      = (Usuario.atualizar_jogo heap u nome).1
    ∧ (Usuario.atualizar_jogo heap (Usuario.atualizar_jogo heap u nome).1 nome).2
      = [nome ++ " ja esta atualizado (v" ++ jogo.versao_atual ++ ")."] := by
  by_cases heq : reg.versao_instalada = jogo.versao_atual
  · have h1 : Usuario.atualizar_jogo heap u nome
        = (u, [nome ++ " ja esta atualizado (v" ++ reg.versao_instalada ++ ")."]) := by
      simp [Usuario.atualizar_jogo, hreg, hjogo, heq]
    rw [h1]
    simp only []
    rw [h1, heq]
    exact ⟨rfl, rfl⟩
  · have h1 : Usuario.atualizar_jogo heap u nome
        = ({ u with jogos_adquiridos := updateAssoc u.jogos_adquiridos nome ⟨reg.obj, jogo.versao_atual⟩ },
           [nome ++ " atualizado de v" ++ reg.versao_instalada ++ " para v" ++ jogo.versao_atual ++ "."]) := by
      simp [Usuario.atualizar_jogo, hreg, hjogo, heq]
    have hreg2 : lookupAssoc (updateAssoc u.jogos_adquiridos nome ⟨reg.obj, jogo.versao_atual⟩) nome
        = some ⟨reg.obj, jogo.versao_atual⟩ :=
      lookupAssoc_updateAssoc_self u.jogos_adquiridos nome ⟨reg.obj, jogo.versao_atual⟩ reg hreg
    have h2 : Usuario.atualizar_jogo heap
        { u with jogos_adquiridos := updateAssoc u.jogos_adquiridos nome ⟨reg.obj, jogo.versao_atual⟩ } nome
        = ({ u with jogos_adquiridos := updateAssoc u.jogos_adquiridos nome ⟨reg.obj, jogo.versao_atual⟩ },
           [nome ++ " ja esta atualizado (v" ++ jogo.versao_atual ++ ")."]) := by
      simp [Usuario.atualizar_jogo, hreg2, hjogo]
    rw [h1]
    simp only []
    rw [h2]
    exact ⟨rfl, rfl⟩

def contaComJogo : Usuario :=
  { contaBase with jogos_adquiridos := [("Semestre_Rush", ⟨0, "1.0.0"⟩)] }

/-- Witness for C9 at a concrete input: the account owning Semestre_Rush
at its current version gets the no-op report on the repeated update. -/
theorem c9_atualizar_idempotente_witness :
    (Usuario.atualizar_jogo [jogoSR] (Usuario.atualizar_jogo [jogoSR] contaComJogo "Semestre_Rush").1 "Semestre_Rush").2
      = ["Semestre_Rush ja esta atualizado (v1.0.0)."] :=
  (c9_atualizar_idempotente [jogoSR] contaComJogo "Semestre_Rush" ⟨0, "1.0.0"⟩ jogoSR
    (by simp [contaComJogo, lookupAssoc]) rfl).2

/-! The balance invariant along operation sequences -/

theorem step_saldo_nonneg (s : List Jogo × Usuario) (op : Op)
    (h : 0 ≤ s.2.saldo.valor) : 0 ≤ (step s op).2.saldo.valor := by
  obtain ⟨heap, u⟩ := s
  cases op with
  | credito v notify =>
      simp only [step, Usuario.adicionar_saldo]
      split_ifs with hv
      · simp only [POOCoin.add, POOCoin.init]
        exact round2_nonneg _ (add_nonneg h (le_of_lt hv))
      · exact h
  | compra ref notify =>
      simp only [step]
      cases hn : nthJogo heap ref with
      | none => simpa using h
      | some j =>
          simp only [Usuario.comprar_jogo]
          split_ifs with h1 h2 h3
          · simpa using h
          · simpa using h
          · simpa using h
          · have hle : j.preco.valor ≤ u.saldo.valor := by
              simp only [POOCoin.ltb, decide_eq_true_eq] at h3
              exact not_lt.mp h3
            simp only [POOCoin.sub, POOCoin.init]
            exact round2_nonneg _ (by linarith)
  | compraItem ref item =>
      simp only [step]
      cases hn : nthJogo heap ref with
      | none => simpa using h
      | some j =>
          simp only [Usuario.comprar_item, Jogo.obter_preco_item]
          split_ifs with h1
          · simpa using h
          · cases hl : lookupAssoc j.loja item with
            | none => simpa [hl] using h
            | some preco =>
                simp only [hl]
                split_ifs with h2
                · simpa using h
                · have hle : preco.valor ≤ u.saldo.valor := by
                    simp only [POOCoin.ltb, decide_eq_true_eq] at h2
                    exact not_lt.mp h2
                  simp only [POOCoin.sub, POOCoin.init]
                  exact round2_nonneg _ (by linarith)
  | atualizar nome =>
      simp only [step, Usuario.atualizar_jogo]
      cases hr : lookupAssoc u.jogos_adquiridos nome with
      | none => simpa using h
      | some reg =>
          simp only [hr]
          cases hn : nthJogo heap reg.obj with
          | none => simpa using h
          | some j =>
              simp only [hn]
              split_ifs with hv
              · simpa using h
              · simpa using h
  | abrirTicket problema categoria => simpa [step, Usuario.abrir_ticket] using h
  | processarTickets => simpa [step, Plataforma.processar_tickets_usuario] using h
  | patch ref versao notas => simpa [step] using h

theorem run_saldo_nonneg (ops : List Op) :
    ∀ s : List Jogo × Usuario, 0 ≤ s.2.saldo.valor → 0 ≤ (run s ops).2.saldo.valor := by
  induction ops with
  | nil => intro s h; exact h
  | cons op t ih =>
      intro s h
      have hstep := step_saldo_nonneg s op h
      simpa [run, List.foldl] using ih (step s op) hstep

/-- Claim C7: starting from a zero balance, along any sequence of account
operations (credits, game purchases, item purchases, and the other session
operations) the balance is non-negative after every prefix. -/
theorem c7_saldo_nonneg_invariant (heap : List Jogo) (u : Usuario) (ops : List Op) (n : Nat)
    (h : u.saldo.valor = 0) :
    0 ≤ ((run (heap, u) (ops.take n)).2).saldo.valor :=
  run_saldo_nonneg (ops.take n) (heap, u) (by rw [h])

def contaZero : Usuario := { contaBase with saldo := POOCoin.init 0 }

/-- Witness for C7 at a concrete input: after a credit of 50 followed by
the purchase of the sample game, the balance of the account that started
at zero is still non-negative. -/
theorem c7_saldo_nonneg_invariant_witness :
    0 ≤ ((run ([jogoSR], contaZero)
        (([Op.credito (POOCoin.init 50) true, Op.compra 0 true]).take 2)).2).saldo.valor := by
  have h0 : contaZero.saldo.valor = 0 := by
    rw [show contaZero.saldo = POOCoin.init 0 from rfl, POOCoin.init_eq 0 ⟨0, by norm_num⟩]
  exact c7_saldo_nonneg_invariant [jogoSR] contaZero [Op.credito (POOCoin.init 50) true, Op.compra 0 true] 2 h0

/-! Ownership monotonicity and heap-name preservation along sequences -/

theorem step_possui (s : List Jogo × Usuario) (op : Op) (nome : String)
    (h : s.2.possui_jogo nome = true) : (step s op).2.possui_jogo nome = true := by
  obtain ⟨heap, u⟩ := s
  cases op with
  | credito v notify =>
      simp only [step, Usuario.adicionar_saldo]
      split_ifs <;> simpa using h
  | compra ref notify =>
      simp only [step]
      cases hn : nthJogo heap ref with
      | none => simpa using h
      | some j =>
          simp only [Usuario.comprar_jogo]
          split_ifs with h1 h2 h3
          · simpa using h
          · simpa using h
          · simpa using h
          · simp only [Usuario.possui_jogo] at h ⊢
            exact lookupAssoc_append_some _ _ _ h
  | compraItem ref item =>
      simp only [step]
      cases hn : nthJogo heap ref with
      | none => simpa using h
      | some j =>
          simp only [Usuario.comprar_item, Jogo.obter_preco_item]
          split_ifs with h1
          · simpa using h
          · cases hl : lookupAssoc j.loja item with
            | none => simpa [hl] using h
            | some preco =>
                simp only [hl]
                split_ifs with h2 <;> simpa using h
  | atualizar nome2 =>
      simp only [step, Usuario.atualizar_jogo]
      cases hr : lookupAssoc u.jogos_adquiridos nome2 with
      | none => simpa using h
      | some reg =>
          simp only [hr]
          cases hn : nthJogo heap reg.obj with
          | none => simpa using h
          | some j =>
              simp only [hn]
              split_ifs with hv
              · simpa using h
              · simp only [Usuario.possui_jogo] at h ⊢
                rw [lookupAssoc_updateAssoc_isSome]
                exact h
  | abrirTicket problema categoria => simpa [step, Usuario.abrir_ticket] using h
  | processarTickets => simpa [step, Plataforma.processar_tickets_usuario] using h
  | patch ref versao notas => simpa [step] using h

theorem run_possui (ops : List Op) :
    ∀ (s : List Jogo × Usuario) (nome : String), s.2.possui_jogo nome = true →
      (run s ops).2.possui_jogo nome = true := by
  induction ops with
  | nil => intro s nome h; exact h
  | cons op t ih =>
      intro s nome h
      simpa [run, List.foldl] using ih (step s op) nome (step_possui s op nome h)

theorem nthJogo_setAt (l : List Jogo) (i ref : Nat) (f : Jogo → Jogo) :
    nthJogo (setAt l i f) ref = if i = ref then (nthJogo l ref).map f else nthJogo l ref := by
  induction l generalizing i ref with
  | nil => simp [setAt, nthJogo]
  | cons j t ih =>
      cases i with
      | zero =>
          cases ref with
          | zero => simp [setAt, nthJogo]
          | succ r => simp [setAt, nthJogo]
      | succ i2 =>
          cases ref with
          | zero => simp [setAt, nthJogo]
          | succ r => simp [setAt, nthJogo, ih]

theorem step_nome_at (s : List Jogo × Usuario) (op : Op) (ref : Nat) (j : Jogo)
    (h : nthJogo s.1 ref = some j) :
    ∃ j2, nthJogo (step s op).1 ref = some j2 ∧ j2.nome = j.nome := by
  obtain ⟨heap, u⟩ := s
  cases op with
  | credito v notify => exact ⟨j, by simpa [step] using h, rfl⟩
  | compra ref2 notify => exact ⟨j, by simpa [step] using h, rfl⟩
  | compraItem ref2 item => exact ⟨j, by simpa [step] using h, rfl⟩
  | atualizar nome => exact ⟨j, by simpa [step] using h, rfl⟩
  | abrirTicket problema categoria => exact ⟨j, by simpa [step] using h, rfl⟩
  | processarTickets => exact ⟨j, by simpa [step] using h, rfl⟩
  | patch ref2 versao notas =>
      simp only [step, publicar_patch_at, nthJogo_setAt]
      by_cases he : ref2 = ref
      · rw [if_pos he, h]
        exact ⟨j.publicar_patch versao notas, by simp, rfl⟩
      · rw [if_neg he]
        exact ⟨j, h, rfl⟩

theorem run_nome_at (ops : List Op) :
    ∀ (s : List Jogo × Usuario) (ref : Nat) (j : Jogo), nthJogo s.1 ref = some j →
      ∃ j2, nthJogo (run s ops).1 ref = some j2 ∧ j2.nome = j.nome := by
  induction ops with
  | nil => intro s ref j h; exact ⟨j, h, rfl⟩
  | cons op t ih =>
      intro s ref j h
      obtain ⟨j1, hj1, hn1⟩ := step_nome_at s op ref j h
      obtain ⟨j2, hj2, hn2⟩ := ih (step s op) ref j1 hj1
      exact ⟨j2, by simpa [run, List.foldl] using hj2, hn2.trans hn1⟩

/-- Claim C3: comprar_jogo checks already-owned, then platform
compatibility, then funds, in that order, each failure leaving the account
unchanged with the corresponding message; on success it debits the price
(exactly, on two-decimal values), records ownership with the installed
version taken from the product at purchase time, a later patch publication
does not change the recorded installed version, and after any further
sequence of operations a repeated purchase of the same product fails as
already owned, leaving the account unchanged. -/
theorem c3_comprar_jogo_spec (heap : List Jogo) (u : Usuario) (jogo : Jogo) (ref : Nat)
    (notify : Bool) (h0 : nthJogo heap ref = some jogo) :
    (u.possui_jogo jogo.nome = true →
      Usuario.comprar_jogo u jogo ref notify
        = (u, msgsIf notify ("Voce ja possui o jogo " ++ jogo.nome ++ ".")))
    ∧ (u.possui_jogo jogo.nome = false → u.pref_incompativel jogo = true →
      Usuario.comprar_jogo u jogo ref notify
        = (u, msgsIf notify (jogo.nome ++ " nao e compativel com sua plataforma preferida.")))
    ∧ (u.possui_jogo jogo.nome = false → u.pref_incompativel jogo = false →
        POOCoin.ltb u.saldo jogo.preco = true →
      Usuario.comprar_jogo u jogo ref notify
        = (u, msgsIf notify ("Saldo insuficiente para comprar " ++ jogo.nome ++ ".")))
    ∧ (u.possui_jogo jogo.nome = false → u.pref_incompativel jogo = false →
        POOCoin.ltb u.saldo jogo.preco = false →
      ((Usuario.comprar_jogo u jogo ref notify).1.saldo.valor
          = round2 (u.saldo.valor - jogo.preco.valor))
      ∧ (TwoDec u.saldo.valor → TwoDec jogo.preco.valor →
          (Usuario.comprar_jogo u jogo ref notify).1.saldo.valor
            = u.saldo.valor - jogo.preco.valor)
      ∧ (lookupAssoc (Usuario.comprar_jogo u jogo ref notify).1.jogos_adquiridos jogo.nome
          = some ⟨ref, jogo.versao_atual⟩)
      ∧ (∀ versao notas,
          lookupAssoc ((run (heap, (Usuario.comprar_jogo u jogo ref notify).1)
              [Op.patch ref versao notas]).2).jogos_adquiridos jogo.nome
            = some ⟨ref, jogo.versao_atual⟩)
      ∧ (∀ (ops : List Op) (j2 : Jogo),
          nthJogo (run (heap, (Usuario.comprar_jogo u jogo ref notify).1) ops).1 ref = some j2 →
          Usuario.comprar_jogo (run (heap, (Usuario.comprar_jogo u jogo ref notify).1) ops).2 j2 ref true
            = ((run (heap, (Usuario.comprar_jogo u jogo ref notify).1) ops).2,
               ["Voce ja possui o jogo " ++ jogo.nome ++ "."]))) := by
  refine ⟨?_, ?_, ?_, ?_⟩
  · intro h1
    simp [Usuario.comprar_jogo, h1]
  · intro h1 h2
    simp [Usuario.comprar_jogo, h1, h2]
  · intro h1 h2 h3
    simp [Usuario.comprar_jogo, h1, h2, h3]
  · intro h1 h2 h3
    have hres : Usuario.comprar_jogo u jogo ref notify
        = ({ u with
             saldo := POOCoin.sub u.saldo jogo.preco,
             jogos_adquiridos := u.jogos_adquiridos ++ [(jogo.nome, ⟨ref, jogo.versao_atual⟩)] },
           msgsIf notify ("Jogo " ++ jogo.nome ++ " comprado com sucesso!")) := by
      simp [Usuario.comprar_jogo, h1, h2, h3]
    have hnone : lookupAssoc u.jogos_adquiridos jogo.nome = none := by
      simp only [Usuario.possui_jogo] at h1
      cases hc : lookupAssoc u.jogos_adquiridos jogo.nome with
      | none => rfl
      | some r => rw [hc] at h1; simp at h1
    have hlook : lookupAssoc (Usuario.comprar_jogo u jogo ref notify).1.jogos_adquiridos jogo.nome
        = some ⟨ref, jogo.versao_atual⟩ := by
      rw [hres]
      exact lookupAssoc_append_right _ _ _ hnone
    refine ⟨?_, ?_, hlook, ?_, ?_⟩
    · rw [hres]
      simp [POOCoin.sub, POOCoin.init]
    · intro hb hp
      rw [hres]
      exact POOCoin.sub_valor hb hp
    · intro versao notas
      simpa [run, List.foldl, step] using hlook
    · intro ops j2 hj2
      have hown : (run (heap, (Usuario.comprar_jogo u jogo ref notify).1) ops).2.possui_jogo jogo.nome
          = true := by
        apply run_possui
        simp only [Usuario.possui_jogo, hlook, Option.isSome_some]
      obtain ⟨j2', hj2', hnome⟩ :=
        run_nome_at ops (heap, (Usuario.comprar_jogo u jogo ref notify).1) ref jogo h0
      have hjj : j2 = j2' := by
        rw [hj2] at hj2'
        exact Option.some.inj hj2'
      have hnomej2 : j2.nome = jogo.nome := by
        rw [hjj]
        exact hnome
      set t2 := (run (heap, (Usuario.comprar_jogo u jogo ref notify).1) ops).2 with ht2
      simp [Usuario.comprar_jogo, hnomej2, hown, msgsIf]

/-- Witness for C3 at a concrete input: buying the sample game records the
ownership entry with the version at purchase time. -/
theorem c3_comprar_jogo_spec_witness :
    lookupAssoc (Usuario.comprar_jogo contaBase jogoSR 0 true).1.jogos_adquiridos "Semestre_Rush"
      = some ⟨0, "1.0.0"⟩ := by
  have h1 : contaBase.possui_jogo jogoSR.nome = false := by decide
  have h2 : contaBase.pref_incompativel jogoSR = false := by decide
  have h3 : POOCoin.ltb contaBase.saldo jogoSR.preco = false := by
    simp [contaBase, jogoSR, init75, init50, ltb_75_50]
  have hs : jogoSR.nome = "Semestre_Rush" := rfl
  have := ((c3_comprar_jogo_spec [jogoSR] contaBase jogoSR 0 true rfl).2.2.2 h1 h2 h3).2.2.1
  rw [hs] at this
  exact this

/-- Witness for C4 at a concrete input: an unknown category routes to the
fallback and ends Em análise. -/
theorem c4_suporte_chain_routing_witness :
    (suporte_handle ⟨"nao abre", "Aberto", "xyz"⟩).status = "Em análise" := by
  have h := (c4_suporte_chain_routing ⟨"nao abre", "Aberto", "xyz"⟩).1
  rw [h]
  decide

/-- Witness for C10 at a concrete input: the default-category ticket of
the sample account resolves to Em análise. -/
theorem c10_ticket_default_witness :
    suporte_handle ⟨"ajuda", "Aberto", "geral"⟩ = ⟨"ajuda", "Em análise", "geral"⟩ :=
  (c10_ticket_default contaBase "ajuda").2.2.2
